import Mathlib

/-
Verification of the Pairing & Relay Engine of the MultiLangTranslator bot.

The development shallowly embeds the Python sources:
  - core/session.py            (SessionManager)
  - handlers/search_handlers.py (find_random_partner, disconnect_chat,
                                 contact_user_callback)
  - handlers/message_relay.py  (handle_user_message)
  - data_handler.py            (get_all_users, get_user_data)

Python dicts are modelled as duplicate-free association lists with
insertion-order-preserving update (`dictInsert`), Python `str(user_id)`
coercion as `pyStr` on the dynamic id type `PyId`, and Python truthiness of
an optional string (`if not partner_id`) as `truthyOptStr`.  Telegram /
network side effects (message sends, admin-group forwards) are modelled by
their observable outcomes: a boolean delivery result fed into the relay
handler and an explicit list of forwarded chat logs in the disconnect
outcome.
-/

/-- Python dict lookup `d.get(k)` on an association list. -/
def dictGet {α : Type} : List (String × α) → String → Option α
  | [], _ => none
  | kv :: rest, k => if kv.fst = k then some kv.snd else dictGet rest k

/-- Python dict assignment `d[k] = v`: updates the first binding of `k` in
place (dicts are duplicate-free, so the first binding is the only one) and
otherwise appends the new binding, preserving insertion order. -/
def dictInsert {α : Type} : List (String × α) → String → α → List (String × α)
  | [], k, v => [(k, v)]
  | kv :: rest, k, v => if kv.fst = k then (k, v) :: rest else kv :: dictInsert rest k v

/-- Python dict deletion `del d[k]` (a no-op when the key is absent, which
is how the sources guard every deletion with an `in` check). -/
def dictErase {α : Type} : List (String × α) → String → List (String × α)
  | [], _ => []
  | kv :: rest, k => if kv.fst = k then dictErase rest k else kv :: dictErase rest k

/-- Dynamic user-id value as handed to `SessionManager`: the Telegram layer
produces integers, the handlers produce decimal strings. -/
inductive PyId : Type
  | int (n : Int)
  | str (s : String)
deriving Repr, DecidableEq

/-- Python `str(user_id)` as applied by every `SessionManager` operation. -/
def pyStr : PyId → String
  | .int n => toString n
  | .str s => s

/-- Python truthiness of `Optional[str]`: `None` and the empty string are
falsy, every other string is truthy. -/
def truthyOptStr : Option String → Bool
  | none => false
  | some s => if s = "" then false else true

/-- One entry of a chat history, as built by `handle_user_message` and
stamped by `add_message_to_history` (`message_data` plus its timestamp). -/
structure TranscriptEntry where
  from_user_id : String
  from_name : String
  message_type : String
  content : String
  timestamp : Nat
deriving Repr, DecidableEq

/-- The `message_data` dict as built by `handle_user_message`, before
`add_message_to_history` stamps the timestamp onto it. -/
structure MsgData where
  from_user_id : String
  from_name : String
  message_type : String
  content : String
deriving Repr, DecidableEq

/-- Timestamp stamping performed inside `add_message_to_history`
(`message_data["timestamp"] = time.time()`). -/
def mkEntry (d : MsgData) (now : Nat) : TranscriptEntry :=
  ⟨d.from_user_id, d.from_name, d.message_type, d.content, now⟩

/-- The per-user record of `sessions[uid]` in `SessionManager`: a `state`
value and a `last_activity` time. -/
structure SessionRec where
  state : Option String
  last_activity : Nat
deriving Repr, DecidableEq

/-- The mutable state of `SessionManager`: `sessions`, `chat_partners`
(user id to partner id) and `chat_histories` (user id to message list). -/
structure SessionState where
  sessions : List (String × SessionRec)
  chat_partners : List (String × String)
  chat_histories : List (String × List TranscriptEntry)
deriving Repr, DecidableEq

/-- The state of a freshly constructed `SessionManager`: three empty dicts. -/
def initialState : SessionState := ⟨[], [], []⟩

/-- SessionManager.get_session_state. -/
def get_session_state (st : SessionState) (user_id : PyId) : Option String :=
  match dictGet st.sessions (pyStr user_id) with
  | some r => r.state
  | none => none

/-- SessionManager.set_session_state: records the state and the activity
time `now` under the stringified id. -/
def set_session_state (st : SessionState) (user_id : PyId) (state : String) (now : Nat) : SessionState :=
  { st with sessions := dictInsert st.sessions (pyStr user_id) ⟨some state, now⟩ }

/-- SessionManager.clear_session. -/
def clear_session (st : SessionState) (user_id : PyId) : SessionState :=
  { st with sessions := dictErase st.sessions (pyStr user_id) }

/-- SessionManager.set_chat_partner: stores the (stringified) partner id
under the (stringified) user id, and initializes that user's chat history
to the empty list only when the user has no history entry yet. -/
def set_chat_partner (st : SessionState) (user_id partner_id : PyId) : SessionState :=
  { st with
    chat_partners := dictInsert st.chat_partners (pyStr user_id) (pyStr partner_id),
    chat_histories :=
      if (dictGet st.chat_histories (pyStr user_id)).isSome then st.chat_histories
      else dictInsert st.chat_histories (pyStr user_id) [] }

/-- SessionManager.get_chat_partner. -/
def get_chat_partner (st : SessionState) (user_id : PyId) : Option String :=
  dictGet st.chat_partners (pyStr user_id)

/-- SessionManager.clear_chat_partner. -/
def clear_chat_partner (st : SessionState) (user_id : PyId) : SessionState :=
  { st with chat_partners := dictErase st.chat_partners (pyStr user_id) }

/-- The history-trimming step of `add_message_to_history`: when the list
has grown beyond 100 entries, keep only the last 100 (`history[-100:]`). -/
def capHistory (h : List TranscriptEntry) : List TranscriptEntry :=
  if h.length > 100 then h.drop (h.length - 100) else h

/-- SessionManager.add_message_to_history: ensures the user has a history
list, stamps the timestamp onto the message data, appends it, and trims
the list to the last 100 entries. -/
def add_message_to_history (st : SessionState) (user_id : PyId) (d : MsgData) (now : Nat) : SessionState :=
  let uid := pyStr user_id
  let h := (dictGet st.chat_histories uid).getD []
  { st with chat_histories := dictInsert st.chat_histories uid (capHistory (h ++ [mkEntry d now])) }

/-- SessionManager.get_chat_history (returns a copy; absent users get the
empty list). -/
def get_chat_history (st : SessionState) (user_id : PyId) : List TranscriptEntry :=
  (dictGet st.chat_histories (pyStr user_id)).getD []

/-- SessionManager.clear_chat_history. -/
def clear_chat_history (st : SessionState) (user_id : PyId) : SessionState :=
  { st with chat_histories := dictErase st.chat_histories (pyStr user_id) }

/-- One record of the user-data store (data_handler), restricted to the
fields the Pairing and Relay Engine reads.  `status` carries the Python
`user_data.get("status", "idle")` value with the default already applied. -/
structure UserRecord where
  name : String
  language : String
  gender : String
  country : String
  username : Option String
  profile_complete : Bool
  blocked : Bool
  status : String
deriving Repr, DecidableEq

/-- The user-data store: a dict keyed by stringified user id. -/
def UserDB : Type := List (String × UserRecord)

/-- data_handler.get_user_data: `load_user_data().get(str(user_id), {})`.
`none` models the falsy empty dict returned for an unknown user. -/
def get_user_data (db : UserDB) (user_id : String) : Option UserRecord :=
  dictGet db user_id

/-- A record of the list built by `get_all_users` (data_handler line 218):
its dict comprehension keeps only user_id, name, language, gender, country
and username. -/
structure ProjectedUser where
  user_id : String
  name : String
  language : String
  gender : String
  country : String
  username : Option String
deriving Repr, DecidableEq

/-- A Python value that may be a list of user records (what `get_all_users`
actually builds) or a dict from user id to record (what
`find_random_partner` expects to receive). -/
inductive PyUsersVal : Type
  | pylist (l : List ProjectedUser)
  | pydict (d : List (String × ProjectedUser))
deriving Repr, DecidableEq

/-- data_handler.get_all_users (the second, effective definition at line
218, which shadows the one at line 61; both build list comprehensions):
keeps the users with `profile_complete` true, `blocked` false and
`status == "searching"` and projects each to the six listed fields. -/
def get_all_users (db : UserDB) : PyUsersVal :=
  .pylist ((db.filter fun kv =>
      kv.snd.profile_complete && !kv.snd.blocked && kv.snd.status == "searching").map
    fun kv => ⟨kv.fst, kv.snd.name, kv.snd.language, kv.snd.gender, kv.snd.country, kv.snd.username⟩)

/-- Python attribute lookup `.items()` on the value returned by
`get_all_users`: a dict supplies its key-value pairs, while a list has no
`items` method, so the lookup raises `AttributeError`. -/
def dict_items : PyUsersVal → Except String (List (String × ProjectedUser))
  | .pylist _ => .error "AttributeError: list object has no attribute items"
  | .pydict d => .ok d

/-- Python `.get("profile_complete", False)` / `.get("blocked", False)` on
the records built by `get_all_users`: those records carry only the keys
user_id, name, language, gender, country and username, so either lookup
misses and returns the default `False`. -/
def projGetBool (_u : ProjectedUser) (_key : String) : Bool := false

/-- search_handlers.find_random_partner.  `random.choice` is modelled by an
index `choice` reduced modulo the candidate count.  The function first
iterates `get_all_users().items()`, which raises `AttributeError` because
`get_all_users` returns a list; the filtering loop below is therefore
reachable only from a dict-shaped pool. -/
def find_random_partner (current_user_id : String) (db : UserDB) (st : SessionState)
    (choice : Nat) : Except String (Option ProjectedUser) :=
  match dict_items (get_all_users db) with
  | .error e => .error e
  | .ok pairs =>
    let available := (pairs.filter fun kv =>
      decide (kv.fst ≠ current_user_id)
      && projGetBool kv.snd "profile_complete"
      && !projGetBool kv.snd "blocked"
      && !truthyOptStr (get_chat_partner st (.str kv.fst))).map Prod.snd
    if available.isEmpty then .ok none
    else .ok (available.get? (choice % available.length))

/-- Outcome reported by `contact_user_callback`: the `user_not_found` edit
(shown both for an unknown target and for a target already in a chat) or
the `contact_established` edit. -/
inductive ContactResult : Type
  | userNotFound
  | established
deriving Repr, DecidableEq

/-- search_handlers.contact_user_callback, lines 153-215: rejects when the
target's user data is falsy or when the target already has a (truthy) chat
partner, and otherwise commits the pairing with two `set_chat_partner`
calls.  The notification send is a best-effort side effect outside the
pairing state, and the connection-log forward (guarded by
`if message_forwarder:`) never fires because the forwarder singleton is
never initialized in this repository. -/
def contact_user_callback (st : SessionState) (db : UserDB) (user_id target_id : String) :
    SessionState × ContactResult :=
  match get_user_data db target_id with
  | none => (st, .userNotFound)
  | some _ =>
    if truthyOptStr (get_chat_partner st (.str target_id)) then (st, .userNotFound)
    else
      let st1 := set_chat_partner st (.str user_id) (.str target_id)
      let st2 := set_chat_partner st1 (.str target_id) (.str user_id)
      (st2, .established)

/-- The inbound message payload of `handle_user_message`, one constructor
per `elif` branch of the handler; `unsupported` covers every other update
kind.  Media are carried as their opaque references (file name, emoji,
coordinates rendered to strings by the handler). -/
inductive MsgPayload : Type
  | text (body : String)
  | photo
  | document (file_name : Option String)
  | video
  | audioKind
  | voice
  | sticker (emoji : Option String)
  | location (lat lon : String)
  | unsupported
deriving Repr, DecidableEq

/-- The `message_type` and `content` strings that `handle_user_message`
stores for each supported payload kind; `none` for an unsupported kind
(the handler returns before sending anything). -/
def payloadKind : MsgPayload → Option (String × String)
  | .text body => some ("text", body)
  | .photo => some ("photo", "📷 Photo")
  | .document name => some ("document", "📄 Document: " ++ name.getD "Unknown")
  | .video => some ("video", "🎥 Video")
  | .audioKind => some ("audio", "🎵 Audio")
  | .voice => some ("voice", "🎤 Voice message")
  | .sticker e => some ("sticker", "🎭 Sticker: " ++ e.getD "")
  | .location lat lon => some ("location", "📍 Location: " ++ lat ++ ", " ++ lon)
  | .unsupported => none

/-- Observable outcome of `handle_user_message`: silent return with no
partner, successful relay, the `message_delivery_failed` notice, or the
silent return on an unsupported payload. -/
inductive RelayOutcome : Type
  | notPaired
  | relayed
  | deliveryFailed
  | unsupported
deriving Repr, DecidableEq

/-- message_relay.handle_user_message: returns silently when the sender's
partner entry is falsy; otherwise builds `message_data`, forwards the
payload to the partner (`deliveryOk` models whether the Telegram send
succeeds), and on success appends the entry to both chat histories.  A
failed send raises before the appends, so the state is left unchanged. -/
def handle_user_message (st : SessionState) (db : UserDB) (user_id : String)
    (m : MsgPayload) (deliveryOk : Bool) (now : Nat) : SessionState × RelayOutcome :=
  let partner := get_chat_partner st (.str user_id)
  if truthyOptStr partner then
    let partner_id := partner.getD ""
    let from_name := ((get_user_data db user_id).map UserRecord.name).getD "Unknown"
    match payloadKind m with
    | none => (st, .unsupported)
    | some (ty, content) =>
      if deliveryOk then
        let d : MsgData := ⟨user_id, from_name, ty, content⟩
        let st1 := add_message_to_history st (.str user_id) d now
        let st2 := add_message_to_history st1 (.str partner_id) d now
        (st2, .relayed)
      else (st, .deliveryFailed)
  else (st, .notPaired)

/-- Observable outcome of `disconnect_chat`: the `no_active_chat` reply, or
disconnection together with the list of chat logs handed to
`MessageForwarder.forward_chat_log` (one list element per call). -/
inductive DisconnectOutcome : Type
  | noActiveChat
  | disconnected (forwardedLogs : List (List TranscriptEntry))
deriving Repr, DecidableEq

/-- The module-level `_message_forwarder` singleton of
core/message_forwarder.py.  It starts as `None` and `get_message_forwarder`
creates a forwarder only when handed a bot; the repository's only calls
are the bare `get_message_forwarder()` in search_handlers.py (lines 125
and 209) and no entry point ever passes a bot, so the singleton is `None`
at every call made by the handlers modelled here. -/
def message_forwarder_singleton : Option Unit := none

/-- core/message_forwarder.get_message_forwarder: returns the singleton,
first creating it when it is still `None` and a bot was passed. -/
def get_message_forwarder (bot : Option Unit) : Option Unit :=
  if message_forwarder_singleton.isNone && bot.isSome then bot
  else message_forwarder_singleton

/-- search_handlers.disconnect_chat: replies `no_active_chat` when the
caller's partner entry is falsy; otherwise calls `get_message_forwarder()`
with no bot and forwards the caller's own chat history to the admin group
only when the forwarder is truthy and the history is non-empty
(`if message_forwarder and chat_history`), then clears both partner
entries and both chat histories.  Since the forwarder singleton is never
initialized in this repository, the forward branch never fires.  The
partner notification is a best-effort side effect. -/
def disconnect_chat (st : SessionState) (db : UserDB) (user_id : String) :
    SessionState × DisconnectOutcome :=
  let partner := get_chat_partner st (.str user_id)
  if truthyOptStr partner then
    let partner_id := partner.getD ""
    let chat_history := get_chat_history st (.str user_id)
    let message_forwarder := get_message_forwarder none
    let forwards :=
      if message_forwarder.isSome && !chat_history.isEmpty then [chat_history] else []
    let st1 := clear_chat_partner st (.str user_id)
    let st2 := clear_chat_partner st1 (.str partner_id)
    let st3 := clear_chat_history st2 (.str user_id)
    let st4 := clear_chat_history st3 (.str partner_id)
    (st4, .disconnected forwards)
  else (st, .noActiveChat)

/-- States of the session manager reachable from a fresh start by the three
core operations: pairing commit (`contact_user_callback`), message relay
(`handle_user_message`) and disconnect (`disconnect_chat`), over a fixed
user directory `db`. -/
inductive Reach (db : UserDB) : SessionState → Prop
  | start : Reach db initialState
  | commit (st : SessionState) (u t : String) :
      Reach db st → Reach db (contact_user_callback st db u t).1
  | relay (st : SessionState) (u : String) (m : MsgPayload) (ok : Bool) (now : Nat) :
      Reach db st → Reach db (handle_user_message st db u m ok now).1
  | disc (st : SessionState) (u : String) :
      Reach db st → Reach db (disconnect_chat st db u).1

/-- A three-user directory with complete, unblocked, searching profiles,
used for the concrete executions below. -/
def db0 : UserDB :=
  [("1", ⟨"Alice", "en", "female", "US", none, true, false, "searching"⟩),
   ("2", ⟨"Bob", "fr", "male", "FR", none, true, false, "searching"⟩),
   ("3", ⟨"Carol", "de", "female", "DE", none, true, false, "searching"⟩)]

/-- State after user 1 and user 2 commit a pairing from a fresh start. -/
def stPaired12 : SessionState := (contact_user_callback initialState db0 "1" "2").1

/-- State after the commit of users 1 and 2 followed by a second commit of
user 1 with user 3, fired from a stale contact button: the target check
passes because user 3 is unpaired, while user 1 is still paired with 2. -/
def stCross : SessionState := (contact_user_callback stPaired12 db0 "1" "3").1

/-- State after users 1 and 2 pair and user 1 relays the text "hi". -/
def stChat : SessionState := (handle_user_message stPaired12 db0 "1" (.text "hi") true 5).1

/-- State after the chat above, once user 1 re-commits with user 3. -/
def stRecommit : SessionState := (contact_user_callback stChat db0 "1" "3").1

/-- State after the re-commit above, once user 1 relays "m2" to user 3. -/
def stSplit : SessionState := (handle_user_message stRecommit db0 "1" (.text "m2") true 6).1

/-- Looking up the freshly assigned key yields the assigned value. -/
theorem dictGet_insert_self {α : Type} (d : List (String × α)) (k : String) (v : α) :
    dictGet (dictInsert d k v) k = some v := by
  induction d with
  | nil => simp [dictGet, dictInsert]
  | cons kv rest ih =>
    by_cases h : kv.fst = k
    · simp [dictInsert, dictGet, h]
    · simp [dictInsert, dictGet, h, ih]

/-- Assignment to one key leaves lookups of other keys unchanged. -/
theorem dictGet_insert_ne {α : Type} (d : List (String × α)) (k k' : String) (v : α)
    (h : k' ≠ k) : dictGet (dictInsert d k v) k' = dictGet d k' := by
  induction d with
  | nil => simp [dictGet, dictInsert, Ne.symm h]
  | cons kv rest ih =>
    by_cases hk : kv.fst = k
    · have hne : kv.fst ≠ k' := by rw [hk]; exact Ne.symm h
      simp [dictInsert, dictGet, hk, hne, Ne.symm h, h]
    · by_cases hk' : kv.fst = k'
      · simp [dictInsert, dictGet, hk, hk', Ne.symm h, h]
      · simp [dictInsert, dictGet, hk, hk', ih]

/-- Looking up a deleted key misses. -/
theorem dictGet_erase_self {α : Type} (d : List (String × α)) (k : String) :
    dictGet (dictErase d k) k = none := by
  induction d with
  | nil => simp [dictGet, dictErase]
  | cons kv rest ih =>
    by_cases h : kv.fst = k
    · simp [dictErase, dictGet, h, ih]
    · simp [dictErase, dictGet, h, ih]

/-- Deletion of one key leaves lookups of other keys unchanged. -/
theorem dictGet_erase_ne {α : Type} (d : List (String × α)) (k k' : String)
    (h : k' ≠ k) : dictGet (dictErase d k) k' = dictGet d k' := by
  induction d with
  | nil => simp [dictGet, dictErase]
  | cons kv rest ih =>
    by_cases hk : kv.fst = k
    · have hne : kv.fst ≠ k' := by rw [hk]; exact Ne.symm h
      simp [dictErase, dictGet, hk, hne, Ne.symm h, h, ih]
    · by_cases hk' : kv.fst = k'
      · simp [dictErase, dictGet, hk, hk', Ne.symm h, h, ih]
      · simp [dictErase, dictGet, hk, hk', ih]

/-- Effect of `set_chat_partner` on partner lookups. -/
theorem get_chat_partner_set (st : SessionState) (a b c : PyId) :
    get_chat_partner (set_chat_partner st a b) c =
      if pyStr c = pyStr a then some (pyStr b) else get_chat_partner st c := by
  by_cases h : pyStr c = pyStr a
  · simp [get_chat_partner, set_chat_partner, h, dictGet_insert_self]
  · simp [get_chat_partner, set_chat_partner, h, dictGet_insert_ne _ _ _ _ h]

/-- `set_chat_partner` preserves every chat history: a user with a history
keeps it, and a user without one reads the empty list both before and
after the conditional initialization. -/
theorem get_chat_history_set (st : SessionState) (a b w : PyId) :
    get_chat_history (set_chat_partner st a b) w = get_chat_history st w := by
  by_cases hs : (dictGet st.chat_histories (pyStr a)).isSome
  · simp [get_chat_history, set_chat_partner, hs]
  · by_cases hw : pyStr w = pyStr a
    · have hnone : dictGet st.chat_histories (pyStr a) = none := by
        cases hx : dictGet st.chat_histories (pyStr a) with
        | none => rfl
        | some v => rw [hx] at hs; simp at hs
      simp [get_chat_history, set_chat_partner, hs, hw, dictGet_insert_self, hnone]
    · simp [get_chat_history, set_chat_partner, hs, dictGet_insert_ne _ _ _ _ hw]

/-- Effect of `clear_chat_partner` on partner lookups. -/
theorem get_chat_partner_clear (st : SessionState) (a c : PyId) :
    get_chat_partner (clear_chat_partner st a) c =
      if pyStr c = pyStr a then none else get_chat_partner st c := by
  by_cases h : pyStr c = pyStr a
  · simp [get_chat_partner, clear_chat_partner, h, dictGet_erase_self]
  · simp [get_chat_partner, clear_chat_partner, h, dictGet_erase_ne _ _ _ h]

/-- Effect of `clear_chat_history` on history lookups. -/
theorem get_chat_history_clear_hist (st : SessionState) (a w : PyId) :
    get_chat_history (clear_chat_history st a) w =
      if pyStr w = pyStr a then [] else get_chat_history st w := by
  by_cases h : pyStr w = pyStr a
  · simp [get_chat_history, clear_chat_history, h, dictGet_erase_self]
  · simp [get_chat_history, clear_chat_history, h, dictGet_erase_ne _ _ _ h]

/-- `clear_chat_history` does not touch the partner map. -/
theorem get_chat_partner_clear_hist (st : SessionState) (a c : PyId) :
    get_chat_partner (clear_chat_history st a) c = get_chat_partner st c := rfl

/-- `clear_chat_partner` does not touch the histories. -/
theorem get_chat_history_clear_partner (st : SessionState) (a w : PyId) :
    get_chat_history (clear_chat_partner st a) w = get_chat_history st w := rfl

/-- `add_message_to_history` does not touch the partner map. -/
theorem get_chat_partner_addmsg (st : SessionState) (a : PyId) (d : MsgData) (now : Nat)
    (c : PyId) : get_chat_partner (add_message_to_history st a d now) c = get_chat_partner st c := rfl

/-- Effect of `add_message_to_history` on history lookups. -/
theorem get_chat_history_addmsg (st : SessionState) (a : PyId) (d : MsgData) (now : Nat)
    (w : PyId) :
    get_chat_history (add_message_to_history st a d now) w =
      if pyStr w = pyStr a then capHistory (get_chat_history st a ++ [mkEntry d now])
      else get_chat_history st w := by
  by_cases h : pyStr w = pyStr a
  · simp [get_chat_history, add_message_to_history, h, dictGet_insert_self]
  · simp [get_chat_history, add_message_to_history, h, dictGet_insert_ne _ _ _ _ h]

/-- A truthy partner lookup is exactly a `some` of a non-empty string. -/
theorem truthyOptStr_some {p : String} (hp : p ≠ "") : truthyOptStr (some p) = true := by
  simp [truthyOptStr, hp]

/-- The trimmed history never holds more than 100 entries. -/
theorem capHistory_length_le (h : List TranscriptEntry) : (capHistory h).length ≤ 100 := by
  unfold capHistory
  by_cases hl : h.length > 100
  · simp only [hl, if_true, List.length_drop]
    omega
  · simp only [hl, if_false]
    omega

/-- Appending to a full 100-entry history drops exactly the oldest entry. -/
theorem capHistory_append_full (h : List TranscriptEntry) (e : TranscriptEntry)
    (hl : h.length = 100) : capHistory (h ++ [e]) = h.drop 1 ++ [e] := by
  have hlen : (h ++ [e]).length = 101 := by simp [hl]
  unfold capHistory
  rw [if_pos (by omega), hlen]
  have h1 : (101 : Nat) - 100 = 1 := by omega
  rw [h1, List.drop_append_of_le_length (by omega)]

/-- C1: the pairing symmetry invariant fails on the code.  From a fresh
start, user 1 pairs with user 2 and then fires a stale contact button for
user 3; `contact_user_callback` re-checks only the target, so the commit
succeeds and leaves `getPartner(2) = some 1` while `getPartner(1) = some 3`.
The state is reachable by the core operations and violates the claimed
biconditional at U = 2, V = 1. -/
theorem c1_symmetry_invariant_fails :
    Reach db0 stCross ∧
    get_chat_partner stCross (.str "2") = some "1" ∧
    get_chat_partner stCross (.str "1") = some "3" ∧
    ¬(get_chat_partner stCross (.str "2") = some "1" ↔
        get_chat_partner stCross (.str "1") = some "2") :=
  ⟨Reach.commit _ _ _ (Reach.commit _ _ _ Reach.start), by decide, by decide, by decide⟩

/-- C2: committing a pairing does succeed for a requester who is already
paired.  In the reachable state where user 1 is paired with user 2, the
commit of user 1 with the unpaired user 3 is accepted and rewrites user
1's partner entry, contradicting the claimed rejection. -/
theorem c2_commit_accepts_paired_requester :
    Reach db0 stPaired12 ∧
    get_chat_partner stPaired12 (.str "1") = some "2" ∧
    (contact_user_callback stPaired12 db0 "1" "3").2 = .established ∧
    get_chat_partner (contact_user_callback stPaired12 db0 "1" "3").1 (.str "1") = some "3" :=
  ⟨Reach.commit _ _ _ Reach.start, by decide, by decide, by decide⟩

/-- C3: `find_random_partner` never filters or selects anything: the
effective `get_all_users` returns a list (here the pylist of the three
eligible users of `db0`), and iterating `all_users.items()` over a list
raises `AttributeError` on every call, so the function errors out instead
of returning a candidate or `None`. -/
theorem c3_find_random_partner_raises :
    get_all_users db0 = .pylist
      [⟨"1", "Alice", "en", "female", "US", none⟩,
       ⟨"2", "Bob", "fr", "male", "FR", none⟩,
       ⟨"3", "Carol", "de", "female", "DE", none⟩] ∧
    find_random_partner "1" db0 initialState 0 =
      .error "AttributeError: list object has no attribute items" :=
  ⟨rfl, rfl⟩

/-- The `message_data` dict built by `handle_user_message` for a supported
payload with type string `ty` and content string `content`. -/
def relayData (db : UserDB) (u ty content : String) : MsgData :=
  ⟨u, ((get_user_data db u).map UserRecord.name).getD "Unknown", ty, content⟩

/-- C4: message relay effect and frame.  For a paired sender `u` with
truthy partner `p`, a supported payload and a successful forward, the
handler reports `relayed`, touches no partner entry, appends the one entry
(sender id `u`, the payload's kind and content) to the sender's transcript
and the same entry to the partner's transcript (each through the 100-entry
trim), and leaves every other user's transcript unchanged; when the
forward fails, the failure is reported and the whole state is unchanged. -/
theorem c4_relay_effect_and_frame (st : SessionState) (db : UserDB) (u p : String)
    (m : MsgPayload) (now : Nat) (ty content : String)
    (hpart : get_chat_partner st (.str u) = some p) (hp : p ≠ "") (hup : u ≠ p)
    (hkind : payloadKind m = some (ty, content)) :
    ((handle_user_message st db u m true now).2 = .relayed ∧
     (handle_user_message st db u m true now).1.chat_partners = st.chat_partners ∧
     get_chat_history (handle_user_message st db u m true now).1 (.str u) =
       capHistory (get_chat_history st (.str u) ++ [mkEntry (relayData db u ty content) now]) ∧
     get_chat_history (handle_user_message st db u m true now).1 (.str p) =
       capHistory (get_chat_history st (.str p) ++ [mkEntry (relayData db u ty content) now]) ∧
     (∀ w : String, w ≠ u → w ≠ p →
       get_chat_history (handle_user_message st db u m true now).1 (.str w) =
         get_chat_history st (.str w))) ∧
    handle_user_message st db u m false now = (st, .deliveryFailed) := by
  have htr : truthyOptStr (get_chat_partner st (.str u)) = true := by
    rw [hpart]; exact truthyOptStr_some hp
  have hred : handle_user_message st db u m true now =
      (add_message_to_history
        (add_message_to_history st (.str u) (relayData db u ty content) now)
        (.str p) (relayData db u ty content) now, .relayed) := by
    simp [handle_user_message, htr, hpart, hkind, relayData, truthyOptStr_some hp]
  refine ⟨⟨?_, ?_, ?_, ?_, ?_⟩, ?_⟩
  · rw [hred]
  · rw [hred]
    rfl
  · rw [hred]
    show get_chat_history (add_message_to_history _ _ _ _) (.str u) = _
    rw [get_chat_history_addmsg]
    simp only [pyStr, if_neg hup]
    rw [get_chat_history_addmsg]
    simp
  · rw [hred]
    show get_chat_history (add_message_to_history _ _ _ _) (.str p) = _
    rw [get_chat_history_addmsg]
    simp only [pyStr, if_pos rfl]
    rw [get_chat_history_addmsg]
    simp [pyStr, Ne.symm hup]
  · intro w hwu hwp
    rw [hred]
    show get_chat_history (add_message_to_history _ _ _ _) (.str w) = _
    rw [get_chat_history_addmsg]
    simp only [pyStr, if_neg hwp]
    rw [get_chat_history_addmsg]
    simp only [pyStr, if_neg hwu]
  · simp [handle_user_message, htr, hpart, hkind, truthyOptStr_some hp]

/-- Concrete instance of C4: users 1 and 2 are paired from a fresh start,
user 1 relays the text "ok"; on delivery success both transcripts gain the
one entry, on delivery failure the state is unchanged. -/
theorem c4_relay_effect_and_frame_witness :
    get_chat_partner stPaired12 (.str "1") = some "2" ∧ "2" ≠ "" ∧ "1" ≠ "2" ∧
    payloadKind (.text "ok") = some ("text", "ok") ∧
    (handle_user_message stPaired12 db0 "1" (.text "ok") true 9).2 = .relayed ∧
    get_chat_history (handle_user_message stPaired12 db0 "1" (.text "ok") true 9).1 (.str "1") =
      capHistory (get_chat_history stPaired12 (.str "1") ++ [mkEntry (relayData db0 "1" "text" "ok") 9]) ∧
    get_chat_history (handle_user_message stPaired12 db0 "1" (.text "ok") true 9).1 (.str "2") =
      capHistory (get_chat_history stPaired12 (.str "2") ++ [mkEntry (relayData db0 "1" "text" "ok") 9]) ∧
    handle_user_message stPaired12 db0 "1" (.text "ok") false 9 = (stPaired12, .deliveryFailed) := by
  have h := c4_relay_effect_and_frame stPaired12 db0 "1" "2" (.text "ok") 9 "text" "ok"
    (by decide) (by decide) (by decide) rfl
  exact ⟨by decide, by decide, by decide, rfl, h.1.1, h.1.2.2.1, h.1.2.2.2.1, h.2⟩

/-- C5: transcript bound with FIFO eviction.  After any append via
`add_message_to_history`, the stored transcript holds at most 100 entries;
and when the transcript already holds exactly 100 entries, the append
evicts the oldest entry and retains entries 2 through 101 in order (the
result is the old tail followed by the new entry). -/
theorem c5_transcript_cap_and_fifo (st : SessionState) (u : PyId) (d : MsgData) (now : Nat) :
    (get_chat_history (add_message_to_history st u d now) u).length ≤ 100 ∧
    ((get_chat_history st u).length = 100 →
      get_chat_history (add_message_to_history st u d now) u =
        (get_chat_history st u).drop 1 ++ [mkEntry d now]) := by
  constructor
  · rw [get_chat_history_addmsg]
    simp only [if_pos rfl]
    exact capHistory_length_le _
  · intro hl
    rw [get_chat_history_addmsg]
    simp only [if_pos rfl]
    exact capHistory_append_full _ _ hl

/-- Concrete instance of C5: a user whose transcript holds 100 copies of
one entry appends a 101st; entry 1 is evicted and entries 2 through 101
are retained in order. -/
theorem c5_transcript_cap_and_fifo_witness :
    (get_chat_history (⟨[], [], [("1", List.replicate 100 (mkEntry ⟨"1", "Alice", "text", "x"⟩ 0))]⟩ : SessionState) (.str "1")).length = 100 ∧
    get_chat_history
        (add_message_to_history
          (⟨[], [], [("1", List.replicate 100 (mkEntry ⟨"1", "Alice", "text", "x"⟩ 0))]⟩ : SessionState)
          (.str "1") ⟨"1", "Alice", "text", "y"⟩ 7) (.str "1") =
      (get_chat_history (⟨[], [], [("1", List.replicate 100 (mkEntry ⟨"1", "Alice", "text", "x"⟩ 0))]⟩ : SessionState) (.str "1")).drop 1
        ++ [mkEntry ⟨"1", "Alice", "text", "y"⟩ 7] := by
  have hl : (get_chat_history (⟨[], [], [("1", List.replicate 100 (mkEntry ⟨"1", "Alice", "text", "x"⟩ 0))]⟩ : SessionState) (.str "1")).length = 100 := by
    simp [get_chat_history, dictGet, pyStr]
  exact ⟨hl,
    (c5_transcript_cap_and_fifo
      (⟨[], [], [("1", List.replicate 100 (mkEntry ⟨"1", "Alice", "text", "x"⟩ 0))]⟩ : SessionState)
      (.str "1") ⟨"1", "Alice", "text", "y"⟩ 7).2 hl⟩

/-- Reduction of `disconnect_chat` for a caller with a truthy partner
entry: both partner entries and both histories are cleared, and nothing
is forwarded because `get_message_forwarder()` returns the uninitialized
singleton, which is `None`. -/
theorem disconnect_chat_paired (st : SessionState) (db : UserDB) (u p : String)
    (hpart : get_chat_partner st (.str u) = some p) (hp : p ≠ "") :
    disconnect_chat st db u =
      (clear_chat_history (clear_chat_history
          (clear_chat_partner (clear_chat_partner st (.str u)) (.str p)) (.str u)) (.str p),
       .disconnected []) := by
  simp [disconnect_chat, hpart, truthyOptStr_some hp, get_message_forwarder,
    message_forwarder_singleton]

/-- After a successful disconnect by `u`, both `u` and the partner `p`
have no partner entry. -/
theorem get_chat_partner_after_disconnect (st : SessionState) (db : UserDB) (u p w : String)
    (hpart : get_chat_partner st (.str u) = some p) (hp : p ≠ "")
    (hw : w = u ∨ w = p) :
    get_chat_partner (disconnect_chat st db u).1 (.str w) = none := by
  rw [disconnect_chat_paired st db u p hpart hp]
  dsimp only
  rw [get_chat_partner_clear_hist, get_chat_partner_clear_hist,
    get_chat_partner_clear, get_chat_partner_clear]
  rcases hw with h | h
  · subst h
    by_cases hq : w = p <;> simp [pyStr, hq]
  · subst h
    simp [pyStr]

/-- After a successful disconnect by `u`, both `u` and the partner `p`
have empty transcripts. -/
theorem get_chat_history_after_disconnect (st : SessionState) (db : UserDB) (u p w : String)
    (hpart : get_chat_partner st (.str u) = some p) (hp : p ≠ "")
    (hw : w = u ∨ w = p) :
    get_chat_history (disconnect_chat st db u).1 (.str w) = [] := by
  rw [disconnect_chat_paired st db u p hpart hp]
  dsimp only
  rw [get_chat_history_clear_hist, get_chat_history_clear_hist]
  rcases hw with h | h
  · subst h
    by_cases hq : w = p <;> simp [pyStr, hq]
  · subst h
    simp [pyStr]

/-- C6 (amended): for every paired user who disconnects, both users'
pairing entries are cleared back to idle and both transcripts are
drained; no session-end transcript is ever handed to the external logging
collaborator, because the forwarder singleton is never initialized in
this repository (`get_message_forwarder` is only called without a bot),
so the `if message_forwarder and chat_history` guard never fires. -/
theorem c6_disconnect_flushes_amended (st : SessionState) (db : UserDB) (u p : String)
    (hpart : get_chat_partner st (.str u) = some p) (hp : p ≠ "") :
    get_chat_partner (disconnect_chat st db u).1 (.str u) = none ∧
    get_chat_partner (disconnect_chat st db u).1 (.str p) = none ∧
    get_chat_history (disconnect_chat st db u).1 (.str u) = [] ∧
    get_chat_history (disconnect_chat st db u).1 (.str p) = [] ∧
    (disconnect_chat st db u).2 = .disconnected [] := by
  refine ⟨get_chat_partner_after_disconnect st db u p u hpart hp (Or.inl rfl),
    get_chat_partner_after_disconnect st db u p p hpart hp (Or.inr rfl),
    get_chat_history_after_disconnect st db u p u hpart hp (Or.inl rfl),
    get_chat_history_after_disconnect st db u p p hpart hp (Or.inr rfl), ?_⟩
  rw [disconnect_chat_paired st db u p hpart hp]

/-- Concrete instance of the amended C6 at the reachable state `stSplit`:
user 3 disconnects from user 1; both partner entries and both transcripts
end cleared, and no chat log is forwarded. -/
theorem c6_disconnect_flushes_amended_witness :
    get_chat_partner stSplit (.str "3") = some "1" ∧ "1" ≠ "" ∧
    get_chat_partner (disconnect_chat stSplit db0 "3").1 (.str "3") = none ∧
    get_chat_partner (disconnect_chat stSplit db0 "3").1 (.str "1") = none ∧
    get_chat_history (disconnect_chat stSplit db0 "3").1 (.str "3") = [] ∧
    get_chat_history (disconnect_chat stSplit db0 "3").1 (.str "1") = [] ∧
    (disconnect_chat stSplit db0 "3").2 = .disconnected [] := by
  have h := c6_disconnect_flushes_amended stSplit db0 "3" "1" (by decide) (by decide)
  exact ⟨by decide, by decide, h.1, h.2.1, h.2.2.1, h.2.2.2.1, h.2.2.2.2⟩

/-- C6 counterexample: in the reachable state `stSplit` user 3 is paired
with user 1 and holds a non-empty transcript, yet the disconnect forwards
no session-end transcript at all (zero `forward_chat_log` calls instead
of the claimed "exactly once"): `get_message_forwarder()` is only ever
called without a bot, so the forwarder singleton is `None` and the guard
`if message_forwarder and chat_history` is always false. -/
theorem c6_counterexample_forwarding :
    Reach db0 stSplit ∧
    get_chat_partner stSplit (.str "3") = some "1" ∧
    get_chat_history stSplit (.str "3") ≠ [] ∧
    (disconnect_chat stSplit db0 "3").2 = .disconnected [] :=
  ⟨Reach.relay _ _ _ _ _ (Reach.commit _ _ _ (Reach.relay _ _ _ _ _ (Reach.commit _ _ _ Reach.start))),
   by decide, by decide, by decide⟩

/-- C7: disconnect is a no-op reporting `no_active_chat` for a user whose
partner entry is falsy, and a second disconnect in a row always reports
`no_active_chat` and changes nothing, whatever the first call did. -/
theorem c7_disconnect_idempotent_unpaired (st : SessionState) (db : UserDB) (u : String) :
    (truthyOptStr (get_chat_partner st (.str u)) = false →
      disconnect_chat st db u = (st, .noActiveChat)) ∧
    disconnect_chat (disconnect_chat st db u).1 db u =
      ((disconnect_chat st db u).1, .noActiveChat) := by
  have hfirst : ∀ s : SessionState, truthyOptStr (get_chat_partner s (.str u)) = false →
      disconnect_chat s db u = (s, .noActiveChat) := by
    intro s hs
    simp [disconnect_chat, hs]
  refine ⟨hfirst st, ?_⟩
  by_cases h : truthyOptStr (get_chat_partner st (.str u)) = true
  · obtain ⟨p, hp, hpe⟩ : ∃ p, get_chat_partner st (.str u) = some p ∧ p ≠ "" := by
      cases hx : get_chat_partner st (.str u) with
      | none => rw [hx] at h; simp [truthyOptStr] at h
      | some q =>
        refine ⟨q, rfl, ?_⟩
        intro hq
        rw [hx, hq] at h
        simp [truthyOptStr] at h
    have hnone := get_chat_partner_after_disconnect st db u p u hp hpe (Or.inl rfl)
    exact hfirst _ (by rw [hnone]; rfl)
  · have hf : truthyOptStr (get_chat_partner st (.str u)) = false := by
      cases hb : truthyOptStr (get_chat_partner st (.str u))
      · rfl
      · exact absurd hb h
    rw [hfirst st hf]
    exact hfirst st hf

/-- Concrete instance of C7: a fresh user 1 gets `no_active_chat`, and
after a real disconnect from `stPaired12` a second disconnect reports
`no_active_chat` with no state change. -/
theorem c7_disconnect_idempotent_unpaired_witness :
    truthyOptStr (get_chat_partner initialState (.str "1")) = false ∧
    disconnect_chat initialState db0 "1" = (initialState, .noActiveChat) ∧
    disconnect_chat (disconnect_chat stPaired12 db0 "1").1 db0 "1" =
      ((disconnect_chat stPaired12 db0 "1").1, .noActiveChat) :=
  ⟨by decide, (c7_disconnect_idempotent_unpaired initialState db0 "1").1 (by decide),
    (c7_disconnect_idempotent_unpaired stPaired12 db0 "1").2⟩

/-- C8: relay fails closed without a partner.  A sender whose partner
entry is falsy gets `notPaired` and the state (partners and transcripts)
is returned unchanged, and immediately after a disconnect by `u` both `u`
and the former partner `p` get `notPaired` from a relay attempt, again
with no state change. -/
theorem c8_relay_after_disconnect_fails (st : SessionState) (db : UserDB) (u : String)
    (m : MsgPayload) (ok : Bool) (now : Nat) :
    (truthyOptStr (get_chat_partner st (.str u)) = false →
      handle_user_message st db u m ok now = (st, .notPaired)) ∧
    (∀ p : String, get_chat_partner st (.str u) = some p → p ≠ "" →
      handle_user_message (disconnect_chat st db u).1 db u m ok now =
        ((disconnect_chat st db u).1, .notPaired) ∧
      handle_user_message (disconnect_chat st db u).1 db p m ok now =
        ((disconnect_chat st db u).1, .notPaired)) := by
  have hgen : ∀ (s : SessionState) (w : String),
      truthyOptStr (get_chat_partner s (.str w)) = false →
      handle_user_message s db w m ok now = (s, .notPaired) := by
    intro s w hs
    simp [handle_user_message, hs]
  refine ⟨hgen st u, ?_⟩
  intro p hp hpe
  have hnu := get_chat_partner_after_disconnect st db u p u hp hpe (Or.inl rfl)
  have hnp := get_chat_partner_after_disconnect st db u p p hp hpe (Or.inr rfl)
  exact ⟨hgen _ u (by rw [hnu]; rfl), hgen _ p (by rw [hnp]; rfl)⟩

/-- Concrete instance of C8: after users 1 and 2 disconnect, a text from
user 1 and a text from user 2 both come back `notPaired` with the state
unchanged. -/
theorem c8_relay_after_disconnect_fails_witness :
    get_chat_partner stPaired12 (.str "1") = some "2" ∧
    handle_user_message (disconnect_chat stPaired12 db0 "1").1 db0 "1" (.text "hey") true 8 =
      ((disconnect_chat stPaired12 db0 "1").1, .notPaired) ∧
    handle_user_message (disconnect_chat stPaired12 db0 "1").1 db0 "2" (.text "hey") true 8 =
      ((disconnect_chat stPaired12 db0 "1").1, .notPaired) := by
  have h := (c8_relay_after_disconnect_fails stPaired12 db0 "1" (.text "hey") true 8).2
    "2" (by decide) (by decide)
  exact ⟨by decide, h.1, h.2⟩

/-- C9 counterexample: a committed pairing does not reset an existing
transcript.  In the reachable state `stChat`, user 1 (paired with 2, one
relayed message in their transcript) commits a pairing with user 3 via a
stale contact button; the commit is accepted, yet immediately afterwards
user 1's transcript still holds the old entry and is not empty. -/
theorem c9_counterexample_transcript_not_reset :
    Reach db0 stChat ∧
    (contact_user_callback stChat db0 "1" "3").2 = .established ∧
    get_chat_history (contact_user_callback stChat db0 "1" "3").1 (.str "1") ≠ [] :=
  ⟨Reach.relay _ _ _ _ _ (Reach.commit _ _ _ Reach.start), by decide, by decide⟩

/-- C9 (amended): a successful commit sets both users to Paired with
mutual partner references, and each user's transcript is initialized to
empty only when that user had no transcript: both users' transcript reads
are exactly what they were before the commit (in particular empty when
they held nothing). -/
theorem c9_commit_mutual_refs_amended (st : SessionState) (db : UserDB) (u t : String)
    (h : (contact_user_callback st db u t).2 = .established) (hut : u ≠ t) :
    get_chat_partner (contact_user_callback st db u t).1 (.str u) = some t ∧
    get_chat_partner (contact_user_callback st db u t).1 (.str t) = some u ∧
    get_chat_history (contact_user_callback st db u t).1 (.str u) = get_chat_history st (.str u) ∧
    get_chat_history (contact_user_callback st db u t).1 (.str t) = get_chat_history st (.str t) := by
  cases hd : get_user_data db t with
  | none => rw [contact_user_callback, hd] at h; simp at h
  | some r =>
    by_cases htr : truthyOptStr (get_chat_partner st (.str t)) = true
    · rw [contact_user_callback, hd] at h
      simp [htr] at h
    · have hf : truthyOptStr (get_chat_partner st (.str t)) = false := by
        cases hb : truthyOptStr (get_chat_partner st (.str t))
        · rfl
        · exact absurd hb htr
      have hred : (contact_user_callback st db u t).1 =
          set_chat_partner (set_chat_partner st (.str u) (.str t)) (.str t) (.str u) := by
        rw [contact_user_callback, hd]
        simp [hf]
      refine ⟨?_, ?_, ?_, ?_⟩
      · rw [hred, get_chat_partner_set]
        simp only [pyStr, if_neg hut]
        rw [get_chat_partner_set]
        simp [pyStr]
      · rw [hred, get_chat_partner_set]
        simp [pyStr]
      · rw [hred, get_chat_history_set, get_chat_history_set]
      · rw [hred, get_chat_history_set, get_chat_history_set]

/-- Concrete instance of the amended C9: the commit of user 1 with user 3
from `stChat` yields mutual partner references while both transcripts read
exactly as before the commit. -/
theorem c9_commit_mutual_refs_amended_witness :
    (contact_user_callback stChat db0 "1" "3").2 = .established ∧
    get_chat_partner (contact_user_callback stChat db0 "1" "3").1 (.str "1") = some "3" ∧
    get_chat_partner (contact_user_callback stChat db0 "1" "3").1 (.str "3") = some "1" ∧
    get_chat_history (contact_user_callback stChat db0 "1" "3").1 (.str "1") =
      get_chat_history stChat (.str "1") ∧
    get_chat_history (contact_user_callback stChat db0 "1" "3").1 (.str "3") =
      get_chat_history stChat (.str "3") := by
  have h := c9_commit_mutual_refs_amended stChat db0 "1" "3" (by decide) (by decide)
  exact ⟨by decide, h.1, h.2.1, h.2.2.1, h.2.2.2⟩

/-- C10: every `SessionManager` operation stringifies its user-id argument
(`str(user_id)`), so the integer id `n` and its decimal string address the
same session record, partner entry and transcript; and reading the partner
of the integer id after storing under the string id returns the stored
partner, as in `get_chat_partner(123)` after `set_chat_partner("123", p)`. -/
theorem c10_user_id_canonicalization (st : SessionState) (n : Int) (p : PyId)
    (s : String) (d : MsgData) (now : Nat) :
    get_chat_partner st (.int n) = get_chat_partner st (.str (toString n)) ∧
    set_chat_partner st (.int n) p = set_chat_partner st (.str (toString n)) p ∧
    clear_chat_partner st (.int n) = clear_chat_partner st (.str (toString n)) ∧
    add_message_to_history st (.int n) d now = add_message_to_history st (.str (toString n)) d now ∧
    get_chat_history st (.int n) = get_chat_history st (.str (toString n)) ∧
    clear_chat_history st (.int n) = clear_chat_history st (.str (toString n)) ∧
    get_session_state st (.int n) = get_session_state st (.str (toString n)) ∧
    set_session_state st (.int n) s now = set_session_state st (.str (toString n)) s now ∧
    clear_session st (.int n) = clear_session st (.str (toString n)) ∧
    get_chat_partner (set_chat_partner st (.str (toString n)) p) (.int n) = some (pyStr p) := by
  refine ⟨rfl, rfl, rfl, rfl, rfl, rfl, rfl, rfl, rfl, ?_⟩
  rw [get_chat_partner_set]
  simp [pyStr]
